import Mathlib

/-!
Shallow embedding of the budget/overspend reconciliation engine, the
debt-payoff planner and the tip selector of the ChatbotPM repository.

Two variants of the engine exist in the source and both are embedded here:

* the Telegram chat variant (`src/bot.py`), whose category buckets are
  Necesidades / Deseos / Inversión and whose money type is `Decimal`;
* the console variant (`src/financial_planner.py`), whose third bucket is
  named "Ahorro/Deudas" and whose money type is `float`.

Monetary amounts, budget fractions and interest rates are modelled as `ℚ`
(the source's `Decimal`/`float` arithmetic, idealised to exact rationals).
Dates are modelled as a (month, year) pair of naturals, which is all the
source ever inspects (`fecha.month` / `fecha.year` equality against "now").
Presentation-only fields (display category such as "Comida", description,
document ids) and persistence plumbing are not part of the embedded state;
each Firestore write performed by a handler is reflected as the
corresponding field update on the in-memory state it returns.
-/

namespace ChatbotPM

/-- Spend-type tags that occur on stored transactions.  The first three are
the canonical tags of the chat variant; `ahorroDeudas` is the legacy tag
"Ahorro/Deudas", which is also the name of the third bucket of the console
variant. -/
inductive SpendType
  | necesidades
  | deseos
  | inversion
  | ahorroDeudas
  deriving DecidableEq, Repr

/-- Budget buckets of the chat variant (`bot.py`): the keys of
`budget_percentages` and of the `gastos` dictionary built by
`calcular_gastos_reales_por_tipo` (bot.py line 251). -/
inductive Cat
  | necesidades
  | deseos
  | inversion
  deriving DecidableEq, Repr

/-- The spend-type string written for a transaction recorded under a
canonical bucket (the flows in bot.py only ever save the three canonical
tags: "tipo_Necesidades"/"tipo_Deseos" buttons and the investment flow's
fixed "Inversión"). -/
def Cat.toSpendType : Cat → SpendType
  | .necesidades => .necesidades
  | .deseos => .deseos
  | .inversion => .inversion

/-- Bucket a stored spend-type is counted under in the chat variant:
bot.py lines 255-256, `if tipo == "Ahorro/Deudas": tipo = "Inversión"`
followed by the `if tipo in gastos` dictionary lookup. -/
def SpendType.toCatBot : SpendType → Cat
  | .necesidades => .necesidades
  | .deseos => .deseos
  | .inversion => .inversion
  | .ahorroDeudas => .inversion

/-- A stored transaction: amount, spend-type tag and the (month, year) of
its timestamp (`Transaccion` in both sources; display category and
description carry no logic and are omitted). -/
structure Transaccion where
  monto : ℚ
  tipo_gasto : SpendType
  mes : Nat
  anio : Nat
  deriving DecidableEq, Repr

/-- Month filter used by both aggregators: the transaction's timestamp
falls in the given calendar month and year. -/
def Transaccion.enMes (t : Transaccion) (mes anio : Nat) : Bool :=
  t.mes == mes && t.anio == anio

/-- The chat variant's `budget_percentages` map.  After the legacy-key
migration on load (bot.py lines 198-200) its keys are exactly
Necesidades, Deseos, Inversión, so it is a record of three fractions. -/
structure BudgetPct where
  nec : ℚ
  des : ℚ
  inv : ℚ
  deriving DecidableEq, Repr

def BudgetPct.get (b : BudgetPct) : Cat → ℚ
  | .necesidades => b.nec
  | .deseos => b.des
  | .inversion => b.inv

def BudgetPct.set (b : BudgetPct) : Cat → ℚ → BudgetPct
  | .necesidades, v => { b with nec := v }
  | .deseos, v => { b with des := v }
  | .inversion, v => { b with inv := v }

/-- The three budget percentages are non-negative and sum to exactly 1. -/
def BudgetPct.invariante (b : BudgetPct) : Prop :=
  0 ≤ b.nec ∧ 0 ≤ b.des ∧ 0 ≤ b.inv ∧ b.nec + b.des + b.inv = 1

/-- The chat variant's `sobregiros_mes_actual` map (pending overspend per
bucket); a missing key is `none`. -/
structure Sobregiros where
  nec : Option ℚ
  des : Option ℚ
  inv : Option ℚ
  deriving DecidableEq, Repr

def Sobregiros.get (s : Sobregiros) : Cat → Option ℚ
  | .necesidades => s.nec
  | .deseos => s.des
  | .inversion => s.inv

def Sobregiros.set (s : Sobregiros) : Cat → ℚ → Sobregiros
  | .necesidades, v => { s with nec := some v }
  | .deseos, v => { s with des := some v }
  | .inversion, v => { s with inv := some v }

/-- Deleting a key (`firestore.DELETE_FIELD` in bot.py line 955, `del` in
financial_planner.py line 596). -/
def Sobregiros.erase (s : Sobregiros) : Cat → Sobregiros
  | .necesidades => { s with nec := none }
  | .deseos => { s with des := none }
  | .inversion => { s with inv := none }

/-- In-memory planner state of the chat variant
(`PlanificadorFinanciero._inicializar_datos` plus
`cargar_datos_desde_firestore`, bot.py lines 178-207): income amounts,
the current month's transactions, the budget fractions and the pending
overspend map. -/
structure Planner where
  ingresos : List ℚ
  transacciones : List Transaccion
  budget_percentages : BudgetPct
  sobregiros_mes_actual : Sobregiros
  deriving DecidableEq, Repr

/-- Total monthly income, `_ingreso_mensual_total` (bot.py lines 209-210). -/
def ingresoMensualTotal (p : Planner) : ℚ :=
  p.ingresos.sum

/-- Allocated amount of one bucket, total income times its stored fraction
(`get_presupuestos_calculados`, bot.py lines 212-217). -/
def presupuestoCalculado (p : Planner) (c : Cat) : ℚ :=
  ingresoMensualTotal p * p.budget_percentages.get c

/-- Month-to-date spend accumulated per bucket over a transaction list:
the loop of `calcular_gastos_reales_por_tipo` (bot.py lines 250-258),
filtering to the current month, remapping the legacy tag via
`SpendType.toCatBot` and summing amounts. -/
def gastosAcumulados : List Transaccion → Nat → Nat → Cat → ℚ
  | [], _, _, _ => 0
  | t :: ts, mes, anio, c =>
      (if t.enMes mes anio ∧ t.tipo_gasto.toCatBot = c then t.monto else 0) +
        gastosAcumulados ts mes anio c

/-- Chat-variant month-to-date spend of one bucket,
`calcular_gastos_reales_por_tipo` (bot.py lines 250-258). -/
def calcularGastosRealesPorTipo (p : Planner) (mes anio : Nat) (c : Cat) : ℚ :=
  gastosAcumulados p.transacciones mes anio c

/-- Remaining allocation of a bucket, `presupuesto - gastos` as computed at
bot.py lines 778, 790, 914 and 932. -/
def disponible (p : Planner) (mes anio : Nat) (c : Cat) : ℚ :=
  presupuestoCalculado p c - calcularGastosRealesPorTipo p mes anio c

/-- Dictionary order of `budget_percentages` (and hence of the computed
`presupuestos`): insertion order Necesidades, Deseos, Inversión. -/
def catList : List Cat :=
  [.necesidades, .deseos, .inversion]

/-- Categories offered as move sources when a bucket is exceeded: every
other bucket whose remaining allocation is strictly positive, with that
remaining amount (bot.py lines 787-792). -/
def opcionesDisponibles (p : Planner) (mes anio : Nat) (tipo : Cat) : List (Cat × ℚ) :=
  (catList.filter (fun c => c ≠ tipo)).filterMap (fun c =>
    let restante := disponible p mes anio c
    if 0 < restante then some (c, restante) else none)

/-- Result of recording a transaction (`save_transaction_and_check_overspending`,
bot.py lines 773-810): either a success report carrying the remaining
balance (the conversation ends), or an over-budget report carrying the
overage and the offered move options (the conversation continues in the
`OVERSPEND_CHOICE` state). -/
inductive ConvOutcome
  | ok (restante : ℚ)
  | overBudget (sobregiro : ℚ) (opciones : List (Cat × ℚ))
  deriving DecidableEq, Repr

/-- Whether the outcome ends the reconciliation episode: `ok` returns
`ConversationHandler.END`, `overBudget` waits in `OVERSPEND_CHOICE`. -/
def ConvOutcome.terminado : ConvOutcome → Bool
  | .ok _ => true
  | .overBudget _ _ => false

/-- Planner state after the new transaction is durably recorded and the
planner reloaded (bot.py lines 739, 771): the transaction, stamped with the
current month, is appended to the month's list. -/
def plannerTrasRegistro (p : Planner) (monto : ℚ) (tipo : Cat) (mes anio : Nat) : Planner :=
  { p with transacciones := p.transacciones ++ [⟨monto, tipo.toSpendType, mes, anio⟩] }

/-- The overspend check run right after a transaction is recorded
(`save_transaction_and_check_overspending`, bot.py lines 773-810).
`tipo` ranges over the canonical buckets because every flow that reaches
this handler saves one of the three canonical spend-type strings.
Returns the reported outcome together with the reloaded planner state
(whose pending-overspend map this handler never touches). -/
def saveTransactionAndCheckOverspending (p : Planner) (monto : ℚ) (tipo : Cat)
    (mes anio : Nat) : ConvOutcome × Planner :=
  let pRec := plannerTrasRegistro p monto tipo mes anio
  let restante := disponible pRec mes anio tipo
  if restante < 0 then
    (.overBudget |restante| (opcionesDisponibles pRec mes anio tipo), pRec)
  else
    (.ok restante, pRec)

/-- The "Dejarlo así por ahora" branch of `overspend_choice_step`
(bot.py lines 897-904): the full overage is written as the pending
overspend of the exceeded bucket (merge write) and the episode ends. -/
def overspendLeaveStep (p : Planner) (catExcedida : Cat) (sobregiro : ℚ) : Planner :=
  { p with sobregiros_mes_actual := p.sobregiros_mes_actual.set catExcedida sobregiro }

/-- Result of the `OVERSPEND_MOVE_AMOUNT` step: either the input is
rejected and the handler re-prompts in the same state with the state
unchanged, or the move is accepted and the updated state is persisted and
the episode ends. -/
inductive MoveStepResult
  | rechazado (p : Planner)
  | aceptado (p : Planner)
  deriving DecidableEq, Repr

/-- The `ENTERING_AMOUNT` handler, `overspend_move_amount_step`
(bot.py lines 921-961).  `montoAMover` is the parse result of the user's
message (`none` when unparseable).  A value that is not positive or
exceeds the source bucket's availability is rejected with a re-prompt.
On acceptance: when total income is positive the move is converted to a
percentage delta and shifted from the source to the exceeded bucket;
then the residual overage is written as pending when it exceeds the fixed
epsilon 0.01 and the pending entry is deleted otherwise. -/
def overspendMoveAmountStep (p : Planner) (mes anio : Nat) (catOrigen catDestino : Cat)
    (sobregiro : ℚ) (montoAMover : Option ℚ) : MoveStepResult :=
  let disp := disponible p mes anio catOrigen
  match montoAMover with
  | none => .rechazado p
  | some monto =>
    if monto ≤ 0 ∨ disp < monto then
      .rechazado p
    else
      let ingresoTotal := ingresoMensualTotal p
      let pcts :=
        if 0 < ingresoTotal then
          let pctOrigen := p.budget_percentages.get catOrigen
          let pctDestino := p.budget_percentages.get catDestino
          (p.budget_percentages.set catOrigen (pctOrigen - monto / ingresoTotal)).set
            catDestino (pctDestino + monto / ingresoTotal)
        else
          p.budget_percentages
      let sobregiroRestante := sobregiro - monto
      let sob :=
        if 1 / 100 < sobregiroRestante then
          p.sobregiros_mes_actual.set catDestino sobregiroRestante
        else
          p.sobregiros_mes_actual.erase catDestino
      .aceptado { p with budget_percentages := pcts, sobregiros_mes_actual := sob }

/-- First step of the budget edit, `edit_budget_nec_step` (bot.py lines
1409-1416): the parsed Necesidades percentage is accepted only when it is
a number between 0 and 100; otherwise the handler re-prompts (`none`). -/
def editBudgetNecStep (pNec : Option ℚ) : Option ℚ :=
  match pNec with
  | none => none
  | some v => if 0 ≤ v ∧ v ≤ 100 then some v else none

/-- Second step of the budget edit, `edit_budget_des_step` (bot.py lines
1418-1441): with `pNec` already validated, the Deseos percentage must lie
between 0 and `100 - pNec`; the Inversión percentage is the remainder and
the three fractions are stored. -/
def editBudgetDesStep (pNec : ℚ) (pDes : Option ℚ) : Option BudgetPct :=
  match pDes with
  | none => none
  | some v =>
    if 0 ≤ v ∧ v ≤ 100 - pNec then
      some ⟨pNec / 100, v / 100, (100 - pNec - v) / 100⟩
    else
      none

/-! The console variant (`src/financial_planner.py`).  Its third bucket is
named "Ahorro/Deudas" (there is no "Inversión" bucket at all), and its
budgets are stored amounts (`PresupuestoCategoria.monto_asignado`)
recomputed from income times fraction only on explicit profile edits. -/

/-- Budget buckets of the console variant: the keys of its `gastos`
dictionary (financial_planner.py line 177) and of `budget_percentages`
(line 123). -/
inductive CatFP
  | necesidades
  | deseos
  | ahorroDeudas
  deriving DecidableEq, Repr

/-- Bucket a spend-type is counted under in the console variant: the loop
at financial_planner.py lines 183-185 adds `t.monto` only when
`t.tipo_gasto` is literally one of the dictionary keys (no remapping), so
"Ahorro/Deudas" is its own bucket and "Inversión" matches no bucket. -/
def SpendType.toCatFP : SpendType → Option CatFP
  | .necesidades => some .necesidades
  | .deseos => some .deseos
  | .inversion => none
  | .ahorroDeudas => some .ahorroDeudas

/-- A per-bucket rational record of the console variant (used both for the
stored `monto_asignado` amounts and for `budget_percentages`). -/
structure MontosFP where
  nec : ℚ
  des : ℚ
  aho : ℚ
  deriving DecidableEq, Repr

def MontosFP.get (m : MontosFP) : CatFP → ℚ
  | .necesidades => m.nec
  | .deseos => m.des
  | .ahorroDeudas => m.aho

def MontosFP.set (m : MontosFP) : CatFP → ℚ → MontosFP
  | .necesidades, v => { m with nec := v }
  | .deseos, v => { m with des := v }
  | .ahorroDeudas, v => { m with aho := v }

/-- The console variant's `sobregiros_mes_actual` map. -/
structure SobregirosFP where
  nec : Option ℚ
  des : Option ℚ
  aho : Option ℚ
  deriving DecidableEq, Repr

def SobregirosFP.get (s : SobregirosFP) : CatFP → Option ℚ
  | .necesidades => s.nec
  | .deseos => s.des
  | .ahorroDeudas => s.aho

def SobregirosFP.set (s : SobregirosFP) : CatFP → ℚ → SobregirosFP
  | .necesidades, v => { s with nec := some v }
  | .deseos, v => { s with des := some v }
  | .ahorroDeudas, v => { s with aho := some v }

def SobregirosFP.erase (s : SobregirosFP) : CatFP → SobregirosFP
  | .necesidades => { s with nec := none }
  | .deseos => { s with des := none }
  | .ahorroDeudas => { s with aho := none }

/-- In-memory state of the console planner (`PlanificadorFinanciero` in
financial_planner.py): incomes, stored budget amounts, budget fractions,
transactions and the pending-overspend map. -/
structure PlannerFP where
  ingresos : List ℚ
  presupuestos : MontosFP
  budget_percentages : MontosFP
  transacciones : List Transaccion
  sobregiros_mes_actual : SobregirosFP
  deriving DecidableEq, Repr

/-- Console total monthly income, `_ingreso_mensual_total`
(financial_planner.py lines 130-131). -/
def ingresoMensualTotalFP (p : PlannerFP) : ℚ :=
  p.ingresos.sum

/-- Month-to-date spend per console bucket: the loop of
`calcular_gastos_reales_por_tipo` (financial_planner.py lines 176-186),
with exact key matching and no legacy remap. -/
def gastosAcumuladosFP : List Transaccion → Nat → Nat → CatFP → ℚ
  | [], _, _, _ => 0
  | t :: ts, mes, anio, c =>
      (if t.enMes mes anio ∧ t.tipo_gasto.toCatFP = some c then t.monto else 0) +
        gastosAcumuladosFP ts mes anio c

/-- Console month-to-date spend of one bucket. -/
def calcularGastosRealesPorTipoFP (p : PlannerFP) (mes anio : Nat) (c : CatFP) : ℚ :=
  gastosAcumuladosFP p.transacciones mes anio c

/-- Remaining stored allocation of a console bucket
(financial_planner.py lines 491, 567, 582). -/
def disponibleFP (p : PlannerFP) (mes anio : Nat) (c : CatFP) : ℚ :=
  p.presupuestos.get c - calcularGastosRealesPorTipoFP p mes anio c

/-- Creation order of the console `presupuestos` list (onboarding adds
Necesidades, Deseos, Ahorro/Deudas in that order). -/
def catListFP : List CatFP :=
  [.necesidades, .deseos, .ahorroDeudas]

/-- Move sources offered by the console wizard: every bucket other than the
exceeded one with strictly positive remaining allocation
(financial_planner.py lines 564-569). -/
def opcionesReajusteFP (p : PlannerFP) (mes anio : Nat) (catExcedida : CatFP) :
    List (CatFP × ℚ) :=
  (catListFP.filter (fun c => c ≠ catExcedida)).filterMap (fun c =>
    let restante := disponibleFP p mes anio c
    if 0 < restante then some (c, restante) else none)

/-- `recalcular_presupuestos` (financial_planner.py lines 167-174): every
stored budget amount becomes total income times the stored fraction. -/
def recalcularPresupuestosFP (p : PlannerFP) : PlannerFP :=
  let total := ingresoMensualTotalFP p
  { p with
    presupuestos :=
      ⟨total * p.budget_percentages.nec, total * p.budget_percentages.des,
        total * p.budget_percentages.aho⟩ }

/-- Modelled from the spec: `reajustar_presupuesto` is called at
financial_planner.py line 589 but is defined nowhere in the repository's
source files, so its body is taken from spec section 4.3: when total
income is positive, the move becomes the percentage delta
`moveAmount / totalIncome`, subtracted from the source category's fraction
and added to the exceeded category's fraction, after which the stored
budget amounts are recomputed (via `recalcular_presupuestos`, which does
exist in the source). -/
def reajustarPresupuestoFP (p : PlannerFP) (origen destino : CatFP) (monto : ℚ) :
    PlannerFP :=
  let total := ingresoMensualTotalFP p
  if 0 < total then
    let delta := monto / total
    let pcts :=
      (p.budget_percentages.set origen (p.budget_percentages.get origen - delta)).set
        destino (p.budget_percentages.get destino + delta)
    recalcularPresupuestosFP { p with budget_percentages := pcts }
  else
    p

/-- The user's reply to the console overspend wizard: leave the overage
unresolved, or move `monto` from the chosen source bucket. -/
inductive DecisionFP
  | dejarAsi
  | mover (origen : CatFP) (monto : ℚ)
  deriving DecidableEq, Repr

/-- The console overspend wizard, `handle_overspending_wizard`
(financial_planner.py lines 560-596).  When no other bucket has positive
availability the full overage is recorded as pending immediately and the
wizard returns without consulting the user.  Otherwise, on "leave it" the
full overage is recorded; on a move whose amount exceeds the source's
availability the full overage is recorded (no re-prompt); on an accepted
move the budget is readjusted and any strictly positive residual is
recorded as pending, while a non-positive residual deletes an existing
pending entry. -/
def handleOverspendingWizardFP (p : PlannerFP) (mes anio : Nat) (catExcedida : CatFP)
    (sobregiro : ℚ) (decision : DecisionFP) : PlannerFP :=
  if opcionesReajusteFP p mes anio catExcedida = [] then
    { p with sobregiros_mes_actual := p.sobregiros_mes_actual.set catExcedida sobregiro }
  else
    match decision with
    | .dejarAsi =>
        { p with sobregiros_mes_actual := p.sobregiros_mes_actual.set catExcedida sobregiro }
    | .mover origen monto =>
        let disp := disponibleFP p mes anio origen
        if disp < monto then
          { p with
            sobregiros_mes_actual := p.sobregiros_mes_actual.set catExcedida sobregiro }
        else
          let pMov := reajustarPresupuestoFP p origen catExcedida monto
          let sobregiroRestante := sobregiro - monto
          if 0 < sobregiroRestante then
            { pMov with
              sobregiros_mes_actual :=
                pMov.sobregiros_mes_actual.set catExcedida sobregiroRestante }
          else if (pMov.sobregiros_mes_actual.get catExcedida).isSome then
            { pMov with
              sobregiros_mes_actual := pMov.sobregiros_mes_actual.erase catExcedida }
          else
            pMov

/-- Outcome of recording an expense in the console daily-expense wizard
(financial_planner.py lines 477-497): the remaining balance is reported,
and a negative balance hands its absolute value to the overspend wizard. -/
inductive ConvOutcomeFP
  | ok (restante : ℚ)
  | sobregiroDetectado (sobregiro : ℚ)
  deriving DecidableEq, Repr

/-- Recording a transaction in the console variant and checking the budget
(`daily_expense_wizard`, financial_planner.py lines 486-494): the
transaction is appended, month-to-date totals recomputed, and the
remaining stored allocation of its bucket decides the outcome. -/
def dailyExpenseCheckFP (p : PlannerFP) (monto : ℚ) (tipo : SpendType) (mes anio : Nat) :
    ConvOutcomeFP × PlannerFP :=
  let pRec := { p with transacciones := p.transacciones ++ [⟨monto, tipo, mes, anio⟩] }
  match tipo.toCatFP with
  | none => (.ok 0, pRec)
  | some c =>
    let restante := disponibleFP pRec mes anio c
    if restante < 0 then
      (.sobregiroDetectado |restante|, pRec)
    else
      (.ok restante, pRec)

/-! The debt-payoff planner.  Both variants sort with Python's `sorted`,
which is a stable sort; `reverse=True` flips the key comparison while
keeping elements with equal keys in source order.  The embedding therefore
uses the stable `List.mergeSort` with the corresponding comparison. -/

/-- A debt record (`Deuda` in bot.py lines 127-133, `DeudaEstrategia` in
financial_planner.py lines 59-67). -/
structure Deuda where
  nombre : String
  saldo_actual : ℚ
  tasa_interes_anual : ℚ
  pago_minimo_mensual : ℚ
  deriving DecidableEq, Repr

/-- Avalanche ordering: `sorted(key=tasa_interes_anual, reverse=True)`
(bot.py line 278, financial_planner.py line 189), a stable descending sort
by annual interest rate. -/
def generarPlanAvalanchaOrden (deudas : List Deuda) : List Deuda :=
  deudas.mergeSort (fun a b => decide (b.tasa_interes_anual ≤ a.tasa_interes_anual))

/-- Snowball ordering: `sorted(key=saldo_actual)` (bot.py line 282,
financial_planner.py line 193), a stable ascending sort by balance. -/
def generarPlanBolaDeNieveOrden (deudas : List Deuda) : List Deuda :=
  deudas.mergeSort (fun a b => decide (a.saldo_actual ≤ b.saldo_actual))

/-! The tip selector.  Tips are tagged with income levels (or the wildcard
"Todos") and a debt condition; the per-user list of already-shown tip ids
is the exclusion set.  `random.choice` over the candidate list is embedded
as indexing by an arbitrary natural number modulo the list length, so the
theorems quantify over every possible random draw. -/

/-- Income level names, `nivel_por_ingreso` thresholds (bot.py lines
219-225, financial_planner.py lines 133-139). -/
inductive Nivel
  | n1
  | n2
  | n3
  | n4
  | n5
  deriving DecidableEq, Repr

/-- An income-level tag on a tip: a concrete level or the wildcard
"Todos". -/
inductive NivelTag
  | nivel (n : Nivel)
  | todos
  deriving DecidableEq, Repr

/-- The debt condition, `condicion_por_deuda` (bot.py lines 227-228). -/
inductive Condicion
  | conDeudas
  | sinDeudas
  deriving DecidableEq, Repr

/-- A tip document: id, income-level tags and condition tags (titles and
explanations carry no logic). -/
structure Tip where
  id : Nat
  nivel_ingreso : List NivelTag
  condicion : List Condicion
  deriving DecidableEq, Repr

/-- The `nivel_por_ingreso` segmentation: thresholds 9000 / 30000 / 80000 /
150000 with strict upper bounds (bot.py lines 219-225). -/
def nivelPorIngreso (total : ℚ) : Nivel :=
  if total < 9000 then .n1
  else if total < 30000 then .n2
  else if total < 80000 then .n3
  else if total < 150000 then .n4
  else .n5

/-- Whether a tip matches the user's segment: its level tags contain the
user's level or "Todos", and its condition tags contain the user's
condition (the candidate filter of bot.py lines 149-163 and
`TipManager.filtrar`, financial_planner.py lines 86-94). -/
def Tip.elegible (t : Tip) (nivel : Nivel) (condicion : Condicion) : Bool :=
  (t.nivel_ingreso.contains (.nivel nivel) || t.nivel_ingreso.contains .todos) &&
    t.condicion.contains condicion

/-- Candidate tips: eligible for the segment and not yet shown
(`TipManager.filtrar` / the loop in bot.py `TipManager.elegir_uno`). -/
def filtrarTips (tips : List Tip) (nivel : Nivel) (condicion : Condicion)
    (excluidos : List Nat) : List Tip :=
  tips.filter (fun t => t.elegible nivel condicion && !(excluidos.contains t.id))

/-- One draw of `TipManager.elegir_uno` (bot.py lines 145-170,
financial_planner.py lines 96-100): `none` when no candidate remains,
otherwise the candidate at position `k % length` — as `k` ranges over ℕ
this covers every outcome of `random.choice`. -/
def elegirUno (tips : List Tip) (nivel : Nivel) (condicion : Condicion)
    (excluidos : List Nat) (k : Nat) : Option Tip :=
  let candidatos := filtrarTips tips nivel condicion excluidos
  candidatos[k % candidatos.length]?

/-- The chat variant's `siguiente_tip` (bot.py lines 230-248): draw with
the current exclusion list; if that fails and the exclusion list is
non-empty, clear it and draw once more; on success append the chosen id to
the (possibly cleared) shown list.  Returns the tip and the new shown
list; `k₁`, `k₂` are the random draws of the two attempts. -/
def siguienteTip (tips : List Tip) (nivel : Nivel) (condicion : Condicion)
    (mostrados : List Nat) (k₁ k₂ : Nat) : Option Tip × List Nat :=
  let primera := elegirUno tips nivel condicion mostrados k₁
  let intento :=
    if primera = none ∧ mostrados ≠ [] then
      (elegirUno tips nivel condicion [] k₂, ([] : List Nat))
    else
      (primera, mostrados)
  match intento with
  | (some t, lista) => (some t, lista ++ [t.id])
  | (none, lista) => (none, lista)

/-- The console variant's `siguiente_tip` (financial_planner.py lines
147-159): identical except that the retry with a cleared exclusion list
happens whenever the first draw fails, even if the list was empty. -/
def siguienteTipFP (tips : List Tip) (nivel : Nivel) (condicion : Condicion)
    (mostrados : List Nat) (k₁ k₂ : Nat) : Option Tip × List Nat :=
  let primera := elegirUno tips nivel condicion mostrados k₁
  let intento :=
    if primera = none then
      (elegirUno tips nivel condicion [] k₂, ([] : List Nat))
    else
      (primera, mostrados)
  match intento with
  | (some t, lista) => (some t, lista ++ [t.id])
  | (none, lista) => (none, lista)

/-! Helper lemmas about the embedded maps and aggregators. -/

theorem BudgetPct.get_set_same (b : BudgetPct) (c : Cat) (v : ℚ) :
    (b.set c v).get c = v := by
  cases c <;> rfl

theorem BudgetPct.get_set_other (b : BudgetPct) (c c' : Cat) (v : ℚ) (h : c' ≠ c) :
    (b.set c v).get c' = b.get c' := by
  cases c <;> cases c' <;> first
    | rfl
    | exact (h rfl).elim

/-- The sum of the three fractions, written through `get`. -/
def BudgetPct.suma (b : BudgetPct) : ℚ :=
  b.nec + b.des + b.inv

theorem BudgetPct.suma_set_set (b : BudgetPct) (o d : Cat) (x y : ℚ) (hod : o ≠ d) :
    ((b.set o x).set d y).suma = b.suma - b.get o + x - b.get d + y := by
  cases o <;> cases d <;>
    first
      | exact (hod rfl).elim
      | (simp [BudgetPct.set, BudgetPct.get, BudgetPct.suma]; ring)

theorem BudgetPct.invariante_def (b : BudgetPct) :
    b.invariante ↔ (∀ c, 0 ≤ b.get c) ∧ b.suma = 1 := by
  constructor
  · rintro ⟨h1, h2, h3, h4⟩
    exact ⟨fun c => by cases c <;> assumption, h4⟩
  · rintro ⟨h, hs⟩
    exact ⟨h .necesidades, h .deseos, h .inversion, hs⟩

theorem Sobregiros.erase_of_get_none (s : Sobregiros) (c : Cat) (h : s.get c = none) :
    s.erase c = s := by
  cases c <;> (cases s; simp_all [Sobregiros.get, Sobregiros.erase])

theorem SobregirosFP.erase_de_get_none (s : SobregirosFP) (c : CatFP) (h : s.get c = none) :
    s.erase c = s := by
  cases c <;> (cases s; simp_all [SobregirosFP.get, SobregirosFP.erase])

theorem gastosAcumulados_nonneg (ts : List Transaccion) (mes anio : Nat) (c : Cat)
    (h : ∀ t ∈ ts, 0 ≤ t.monto) : 0 ≤ gastosAcumulados ts mes anio c := by
  induction ts with
  | nil => simp [gastosAcumulados]
  | cons t ts ih =>
    refine add_nonneg ?_ (ih fun u hu => h u (List.mem_cons_of_mem _ hu))
    split
    · exact h t (List.mem_cons_self _ _)
    · exact le_refl 0

theorem gastosAcumulados_append (ts us : List Transaccion) (mes anio : Nat) (c : Cat) :
    gastosAcumulados (ts ++ us) mes anio c =
      gastosAcumulados ts mes anio c + gastosAcumulados us mes anio c := by
  induction ts with
  | nil => simp [gastosAcumulados]
  | cons t ts ih =>
    simp only [List.cons_append, gastosAcumulados, List.append_eq, ih]
    ring

theorem gastosAcumuladosFP_append (ts us : List Transaccion) (mes anio : Nat) (c : CatFP) :
    gastosAcumuladosFP (ts ++ us) mes anio c =
      gastosAcumuladosFP ts mes anio c + gastosAcumuladosFP us mes anio c := by
  induction ts with
  | nil => simp [gastosAcumuladosFP]
  | cons t ts ih =>
    simp only [List.cons_append, gastosAcumuladosFP, List.append_eq, ih]
    ring

/-! Claim C1. -/

/-- C1: for every recorded transaction, with month-to-date totals
recomputed after including the new transaction, if
`allocated[spendType] - monthToDate[spendType]` is non-negative the
operation reports OK together with that remaining balance; otherwise it
reports an over-budget outcome whose overage equals
`monthToDate[spendType] - allocated[spendType]`.  Stated for the chat
variant (`save_transaction_and_check_overspending`) and for the console
variant (`daily_expense_wizard`). -/
theorem C1_registro_reporta_restante_o_sobregiro (p : Planner) (pf : PlannerFP)
    (monto : ℚ) (tipo : Cat) (tipoFP : CatFP) (mes anio : Nat) :
    (0 ≤ disponible (plannerTrasRegistro p monto tipo mes anio) mes anio tipo →
      saveTransactionAndCheckOverspending p monto tipo mes anio =
        (.ok (disponible (plannerTrasRegistro p monto tipo mes anio) mes anio tipo),
          plannerTrasRegistro p monto tipo mes anio)) ∧
    (disponible (plannerTrasRegistro p monto tipo mes anio) mes anio tipo < 0 →
      saveTransactionAndCheckOverspending p monto tipo mes anio =
        (.overBudget
            (calcularGastosRealesPorTipo (plannerTrasRegistro p monto tipo mes anio) mes anio
                tipo -
              presupuestoCalculado (plannerTrasRegistro p monto tipo mes anio) tipo)
            (opcionesDisponibles (plannerTrasRegistro p monto tipo mes anio) mes anio tipo),
          plannerTrasRegistro p monto tipo mes anio)) ∧
    (∀ tx : SpendType, tx.toCatFP = some tipoFP →
      ∀ q : PlannerFP,
        q = { pf with transacciones := pf.transacciones ++ [⟨monto, tx, mes, anio⟩] } →
        (0 ≤ disponibleFP q mes anio tipoFP →
          dailyExpenseCheckFP pf monto tx mes anio = (.ok (disponibleFP q mes anio tipoFP), q)) ∧
        (disponibleFP q mes anio tipoFP < 0 →
          dailyExpenseCheckFP pf monto tx mes anio =
            (.sobregiroDetectado
                (calcularGastosRealesPorTipoFP q mes anio tipoFP - pf.presupuestos.get tipoFP),
              q))) := by
  refine ⟨?_, ?_, ?_⟩
  · intro h
    simp [saveTransactionAndCheckOverspending, not_lt.mpr h]
  · intro h
    have habs :
        |disponible (plannerTrasRegistro p monto tipo mes anio) mes anio tipo| =
          calcularGastosRealesPorTipo (plannerTrasRegistro p monto tipo mes anio) mes anio
              tipo -
            presupuestoCalculado (plannerTrasRegistro p monto tipo mes anio) tipo := by
      rw [abs_of_neg h]
      simp [disponible]
    simp [saveTransactionAndCheckOverspending, if_pos h, habs]
  · intro tx htx q hq
    subst hq
    constructor
    · intro h
      simp only [dailyExpenseCheckFP, htx]
      rw [if_neg (not_lt.mpr h)]
    · intro h
      simp only [dailyExpenseCheckFP, htx]
      rw [if_pos h, abs_of_neg h]
      simp [disponibleFP]

/-- The overspend-detection scenario of spec section 8.4: income 10000,
percentages 50/30/20, prior month-to-date Deseos spend 1000. -/
def plannerEscenario : Planner :=
  { ingresos := [10000],
    transacciones := [⟨1000, .deseos, 9, 2025⟩],
    budget_percentages := ⟨1 / 2, 3 / 10, 1 / 5⟩,
    sobregiros_mes_actual := ⟨none, none, none⟩ }

/-- Witness for C1: recording a 2500 transaction tagged Deseos in the
scenario of spec section 8.4 reports an overage of 500. -/
theorem C1_registro_reporta_restante_o_sobregiro_witness :
    (saveTransactionAndCheckOverspending plannerEscenario 2500 .deseos 9 2025).1 =
      .overBudget 500 [(.necesidades, 5000), (.inversion, 2000)] := by
  have e1 :
      disponible (plannerTrasRegistro plannerEscenario 2500 .deseos 9 2025) 9 2025
          .necesidades = 5000 := by
    simp [disponible, plannerTrasRegistro, presupuestoCalculado, ingresoMensualTotal,
      calcularGastosRealesPorTipo, gastosAcumulados, Transaccion.enMes, SpendType.toCatBot,
      Cat.toSpendType, BudgetPct.get, plannerEscenario] <;> norm_num
  have e3 :
      disponible (plannerTrasRegistro plannerEscenario 2500 .deseos 9 2025) 9 2025
          .inversion = 2000 := by
    simp [disponible, plannerTrasRegistro, presupuestoCalculado, ingresoMensualTotal,
      calcularGastosRealesPorTipo, gastosAcumulados, Transaccion.enMes, SpendType.toCatBot,
      Cat.toSpendType, BudgetPct.get, plannerEscenario] <;> norm_num
  have h :=
    (C1_registro_reporta_restante_o_sobregiro plannerEscenario
        { ingresos := [], presupuestos := ⟨0, 0, 0⟩, budget_percentages := ⟨0, 0, 0⟩,
          transacciones := [], sobregiros_mes_actual := ⟨none, none, none⟩ }
        2500 .deseos .necesidades 9 2025).2.1
      (by
        simp [disponible, plannerTrasRegistro, presupuestoCalculado, ingresoMensualTotal,
          calcularGastosRealesPorTipo, gastosAcumulados, Transaccion.enMes, SpendType.toCatBot,
          Cat.toSpendType, BudgetPct.get, plannerEscenario] <;> norm_num)
  rw [h]
  have hval :
      calcularGastosRealesPorTipo (plannerTrasRegistro plannerEscenario 2500 .deseos 9 2025) 9
            2025 .deseos -
          presupuestoCalculado (plannerTrasRegistro plannerEscenario 2500 .deseos 9 2025)
            .deseos = 500 := by
    simp [disponible, plannerTrasRegistro, presupuestoCalculado, ingresoMensualTotal,
      calcularGastosRealesPorTipo, gastosAcumulados, Transaccion.enMes, SpendType.toCatBot,
      Cat.toSpendType, BudgetPct.get, plannerEscenario] <;> norm_num
  have hops :
      opcionesDisponibles (plannerTrasRegistro plannerEscenario 2500 .deseos 9 2025) 9 2025
          .deseos = [(.necesidades, 5000), (.inversion, 2000)] := by
    simp [opcionesDisponibles, catList, List.filter, List.filterMap, e1, e3] <;> norm_num
  rw [hval, hops]

/-! Claim C2. -/

/-- C2: for every accepted overspend move with total monthly income
positive, the engine sets `delta = moveAmount / totalIncome`, decreases
the source category's budget percentage by `delta`, increases the
exceeded category's budget percentage by `delta`, and changes no other
category's percentage (`overspend_move_amount_step`, bot.py lines
938-948). -/
theorem C2_movimiento_ajusta_porcentajes (p : Planner) (mes anio : Nat) (o d : Cat)
    (sobregiro monto : ℚ) (hod : o ≠ d) (hing : 0 < ingresoMensualTotal p) :
    ∀ q : Planner,
      overspendMoveAmountStep p mes anio o d sobregiro (some monto) = .aceptado q →
      q.budget_percentages.get o =
          p.budget_percentages.get o - monto / ingresoMensualTotal p ∧
        q.budget_percentages.get d =
          p.budget_percentages.get d + monto / ingresoMensualTotal p ∧
        ∀ c : Cat, c ≠ o → c ≠ d → q.budget_percentages.get c = p.budget_percentages.get c := by
  intro q hq
  simp only [overspendMoveAmountStep] at hq
  split at hq
  · simp at hq
  · have hq' := MoveStepResult.aceptado.inj hq
    subst hq'
    refine ⟨?_, ?_, ?_⟩
    · rw [BudgetPct.get_set_other _ _ _ _ hod, BudgetPct.get_set_same]
    · rw [BudgetPct.get_set_same]
    · intro c hco hcd
      rw [BudgetPct.get_set_other _ _ _ _ hcd, BudgetPct.get_set_other _ _ _ _ hco]

/-- The scenario of spec section 8.5: income 10000, percentages 50/30/20,
month-to-date Necesidades 4000 and Deseos 3500, so Necesidades has 1000
available and Deseos is 500 over. -/
def plannerMovimiento : Planner :=
  { ingresos := [10000],
    transacciones := [⟨4000, .necesidades, 9, 2025⟩, ⟨3500, .deseos, 9, 2025⟩],
    budget_percentages := ⟨1 / 2, 3 / 10, 1 / 5⟩,
    sobregiros_mes_actual := ⟨none, none, none⟩ }

/-- The state accepted by the move of 500 from Necesidades to Deseos in
`plannerMovimiento`: the delta is 500/10000 = 1/20 and the residual
overage is 0, which deletes the (absent) pending entry. -/
def plannerMovimientoAceptado : Planner :=
  { plannerMovimiento with budget_percentages := ⟨9 / 20, 7 / 20, 1 / 5⟩ }

/-- Witness for C2: moving 500 of a 500 overage from Necesidades to Deseos
with income 10000 lowers Necesidades% by 1/20, raises Deseos% by 1/20 and
leaves Inversión% unchanged. -/
theorem C2_movimiento_ajusta_porcentajes_witness :
    plannerMovimientoAceptado.budget_percentages.get .necesidades =
        plannerMovimiento.budget_percentages.get .necesidades -
          500 / ingresoMensualTotal plannerMovimiento ∧
      plannerMovimientoAceptado.budget_percentages.get .deseos =
        plannerMovimiento.budget_percentages.get .deseos +
          500 / ingresoMensualTotal plannerMovimiento ∧
      plannerMovimientoAceptado.budget_percentages.get .inversion =
        plannerMovimiento.budget_percentages.get .inversion := by
  have h :=
    C2_movimiento_ajusta_porcentajes plannerMovimiento 9 2025 .necesidades .deseos 500 500
      (by decide) (by norm_num [ingresoMensualTotal, plannerMovimiento])
      plannerMovimientoAceptado
      (by
        simp [overspendMoveAmountStep, disponible, presupuestoCalculado, ingresoMensualTotal,
          calcularGastosRealesPorTipo, gastosAcumulados, Transaccion.enMes, SpendType.toCatBot,
          BudgetPct.get, BudgetPct.set, Sobregiros.erase, plannerMovimiento,
          plannerMovimientoAceptado] <;> norm_num)
  exact ⟨h.1, h.2.1, h.2.2 .inversion (by decide) (by decide)⟩

/-! Claim C3. -/

/-- C3: both operations that mutate the budget percentages — the overspend
fund move (`overspend_move_amount_step`, bot.py lines 938-948) and the
explicit budget edit (`edit_budget_des_step`, bot.py lines 1418-1441) —
preserve the invariant that the three category percentages are
non-negative and sum to exactly 1.  For the move this holds on every
planner state whose stored transaction amounts are non-negative (the
recording flows only accept positive amounts). -/
theorem C3_invariante_porcentajes :
    (∀ (p : Planner) (mes anio : Nat) (o d : Cat) (sobregiro monto : ℚ) (q : Planner),
        (∀ t ∈ p.transacciones, 0 ≤ t.monto) → o ≠ d →
        p.budget_percentages.invariante →
        overspendMoveAmountStep p mes anio o d sobregiro (some monto) = .aceptado q →
        q.budget_percentages.invariante) ∧
    (∀ (pNec pDes : ℚ) (b : BudgetPct),
        editBudgetNecStep (some pNec) = some pNec →
        editBudgetDesStep pNec (some pDes) = some b →
        b.invariante) := by
  constructor
  · intro p mes anio o d sobregiro monto q htx hod hinv hstep
    simp only [overspendMoveAmountStep] at hstep
    split at hstep
    · simp at hstep
    · rename_i hguard
      push_neg at hguard
      obtain ⟨hpos, hdisp⟩ := hguard
      have hq := MoveStepResult.aceptado.inj hstep
      subst hq
      show BudgetPct.invariante (if 0 < ingresoMensualTotal p then _ else _)
      by_cases hing : 0 < ingresoMensualTotal p
      · rw [if_pos hing]
        have hgast : 0 ≤ calcularGastosRealesPorTipo p mes anio o :=
          gastosAcumulados_nonneg _ _ _ _ htx
        have hdelta0 : 0 ≤ monto / ingresoMensualTotal p :=
          div_nonneg (le_of_lt hpos) (le_of_lt hing)
        have hdelta_le : monto / ingresoMensualTotal p ≤ p.budget_percentages.get o := by
          rw [div_le_iff hing]
          have h1 : monto ≤ ingresoMensualTotal p * p.budget_percentages.get o := by
            have h2 := hdisp
            simp only [disponible, presupuestoCalculado] at h2
            linarith
          linarith [h1]
        rw [BudgetPct.invariante_def]
        obtain ⟨hnn, hsum⟩ := (BudgetPct.invariante_def _).mp hinv
        constructor
        · intro c
          rcases eq_or_ne c d with rfl | hcd
          · rw [BudgetPct.get_set_same]
            have := hnn c
            linarith [hdelta0]
          · rw [BudgetPct.get_set_other _ _ _ _ hcd]
            rcases eq_or_ne c o with rfl | hco
            · rw [BudgetPct.get_set_same]
              linarith [hdelta_le]
            · rw [BudgetPct.get_set_other _ _ _ _ hco]
              exact hnn c
        · rw [BudgetPct.suma_set_set _ _ _ _ _ hod]
          linarith [hsum]
      · rw [if_neg hing]
        exact hinv
  · intro pNec pDes b hnec hdes
    simp only [editBudgetNecStep] at hnec
    split at hnec
    · rename_i hc
      simp only [editBudgetDesStep] at hdes
      split at hdes
      · rename_i hcd
        have hb := Option.some.inj hdes
        subst hb
        obtain ⟨h1, h2⟩ := hc
        obtain ⟨h3, h4⟩ := hcd
        refine ⟨by positivity, by positivity, ?_, ?_⟩
        · have : 0 ≤ 100 - pNec - pDes := by linarith
          positivity
        · field_simp
      · exact absurd hdes (by simp)
    · exact absurd hnec (by simp)

/-- Witness for C3: the accepted move of `plannerMovimientoAceptado`
keeps the invariant, and the explicit edit 55/25/20 satisfies it. -/
theorem C3_invariante_porcentajes_witness :
    plannerMovimientoAceptado.budget_percentages.invariante ∧
      (BudgetPct.mk (55 / 100) (25 / 100) (20 / 100)).invariante := by
  constructor
  · exact
      C3_invariante_porcentajes.1 plannerMovimiento 9 2025 .necesidades .deseos 500 500
        plannerMovimientoAceptado
        (by
          intro t ht
          simp [plannerMovimiento] at ht
          rcases ht with rfl | rfl <;> norm_num)
        (by decide)
        (by norm_num [BudgetPct.invariante, plannerMovimiento])
        (by
          simp [overspendMoveAmountStep, disponible, presupuestoCalculado, ingresoMensualTotal,
            calcularGastosRealesPorTipo, gastosAcumulados, Transaccion.enMes,
            SpendType.toCatBot, BudgetPct.get, BudgetPct.set, Sobregiros.erase,
            plannerMovimiento, plannerMovimientoAceptado] <;> norm_num)
  · exact
      C3_invariante_porcentajes.2 55 25 ⟨55 / 100, 25 / 100, 20 / 100⟩
        (by norm_num [editBudgetNecStep])
        (by norm_num [editBudgetDesStep])

/-! Claim C10. -/

/-- C10: when the user's total monthly income is zero, accepting a move
amount leaves every budget percentage unchanged (the percentage block of
`overspend_move_amount_step` is guarded by `ingreso_total > 0`, bot.py
lines 939-944), while the pending entry for the exceeded category is
still updated: set to the residual when it exceeds 0.01, deleted
otherwise (bot.py lines 950-956). -/
theorem C10_ingreso_cero_marco (p : Planner) (mes anio : Nat) (o d : Cat)
    (sobregiro monto : ℚ) (hing : ingresoMensualTotal p = 0) (hpos : 0 < monto)
    (hdisp : monto ≤ disponible p mes anio o) :
    overspendMoveAmountStep p mes anio o d sobregiro (some monto) =
      .aceptado { p with
        sobregiros_mes_actual :=
          if 1 / 100 < sobregiro - monto then
            p.sobregiros_mes_actual.set d (sobregiro - monto)
          else
            p.sobregiros_mes_actual.erase d } := by
  simp only [overspendMoveAmountStep]
  rw [if_neg (by push_neg; exact ⟨hpos, hdisp⟩), if_neg (by rw [hing]; exact lt_irrefl 0)]

/-- A planner with no income whose Necesidades bucket has positive
availability (a negative stored amount; the handler itself never
re-validates stored data). -/
def plannerIngresoCero : Planner :=
  { ingresos := [],
    transacciones := [⟨-5, .necesidades, 9, 2025⟩],
    budget_percentages := ⟨1 / 2, 3 / 10, 1 / 5⟩,
    sobregiros_mes_actual := ⟨none, none, none⟩ }

/-- Witness for C10: with zero income, moving 2 against an overage of 3
leaves the percentages untouched and sets the pending entry to the
residual 1. -/
theorem C10_ingreso_cero_marco_witness :
    overspendMoveAmountStep plannerIngresoCero 9 2025 .necesidades .deseos 3 (some 2) =
      .aceptado { plannerIngresoCero with sobregiros_mes_actual := ⟨none, some 1, none⟩ } := by
  have h :=
    C10_ingreso_cero_marco plannerIngresoCero 9 2025 .necesidades .deseos 3 2
      (by norm_num [ingresoMensualTotal, plannerIngresoCero])
      (by norm_num)
      (by
        simp [disponible, presupuestoCalculado, ingresoMensualTotal,
          calcularGastosRealesPorTipo, gastosAcumulados, Transaccion.enMes,
          SpendType.toCatBot, BudgetPct.get, plannerIngresoCero] <;> norm_num)
  rw [h]
  norm_num [Sobregiros.set, plannerIngresoCero]

/-! Further helper lemmas for the move step and the console wizard. -/

theorem overspendMoveAmountStep_eq_rechazado (p : Planner) (mes anio : Nat) (o d : Cat)
    (sobregiro monto : ℚ) (h : monto ≤ 0 ∨ disponible p mes anio o < monto) :
    overspendMoveAmountStep p mes anio o d sobregiro (some monto) = .rechazado p := by
  simp only [overspendMoveAmountStep]
  rw [if_pos h]

theorem overspendMoveAmountStep_eq_aceptado (p : Planner) (mes anio : Nat) (o d : Cat)
    (sobregiro monto : ℚ) (hpos : 0 < monto) (hdisp : monto ≤ disponible p mes anio o) :
    overspendMoveAmountStep p mes anio o d sobregiro (some monto) =
      .aceptado { p with
        budget_percentages :=
          if 0 < ingresoMensualTotal p then
            (p.budget_percentages.set o
                (p.budget_percentages.get o - monto / ingresoMensualTotal p)).set d
              (p.budget_percentages.get d + monto / ingresoMensualTotal p)
          else p.budget_percentages,
        sobregiros_mes_actual :=
          if 1 / 100 < sobregiro - monto then
            p.sobregiros_mes_actual.set d (sobregiro - monto)
          else
            p.sobregiros_mes_actual.erase d } := by
  simp only [overspendMoveAmountStep]
  rw [if_neg (by push_neg; exact ⟨hpos, hdisp⟩)]

theorem reajustarPresupuestoFP_sobregiros (p : PlannerFP) (o d : CatFP) (m : ℚ) :
    (reajustarPresupuestoFP p o d m).sobregiros_mes_actual = p.sobregiros_mes_actual := by
  simp only [reajustarPresupuestoFP, recalcularPresupuestosFP]
  split <;> rfl

/-! Claim C4: the claim's fixed epsilon 0.01 matches the chat variant but
not the console variant, whose threshold for keeping a residual as
pending is 0 (financial_planner.py line 592, `if sobregiro_restante > 0`). -/

/-- A console planner with income 100, budgets 50/30/20 and no spending
this month, used to drive the console overspend wizard. -/
def plannerConsola : PlannerFP :=
  { ingresos := [100],
    presupuestos := ⟨50, 30, 20⟩,
    budget_percentages := ⟨1 / 2, 3 / 10, 1 / 5⟩,
    transacciones := [],
    sobregiros_mes_actual := ⟨none, none, none⟩ }

/-- Counterexample for C4: in the console variant, moving 1/2 against an
overage of 101/200 leaves the residual 1/200, which is at most the
claimed epsilon 0.01, yet the pending entry is set to 1/200 instead of
being deleted. -/
theorem C4_contraejemplo :
    ((101 : ℚ) / 200 - 1 / 2 ≤ 1 / 100) ∧
      (handleOverspendingWizardFP plannerConsola 9 2025 .deseos (101 / 200)
            (.mover .necesidades (1 / 2))).sobregiros_mes_actual.get .deseos =
        some (1 / 200) ∧
      (some ((1 : ℚ) / 200) : Option ℚ) ≠ none := by
  refine ⟨by norm_num, ?_, by simp⟩
  simp [handleOverspendingWizardFP, opcionesReajusteFP, catListFP, disponibleFP,
    calcularGastosRealesPorTipoFP, gastosAcumuladosFP, MontosFP.get, MontosFP.set,
    SobregirosFP.set, SobregirosFP.get, reajustarPresupuestoFP, recalcularPresupuestosFP,
    ingresoMensualTotalFP, plannerConsola, List.filter, List.filterMap] <;> norm_num

/-- C4 as amended: after an accepted move, the chat variant sets the
pending entry to the residual when it exceeds the fixed epsilon 0.01 and
deletes it otherwise (bot.py lines 950-956); the console variant uses
threshold 0 instead: any strictly positive residual is recorded as
pending, and only a non-positive residual deletes an existing entry
(financial_planner.py lines 591-596). -/
theorem C4_residuo_pendiente :
    (∀ (p : Planner) (mes anio : Nat) (o d : Cat) (sobregiro monto : ℚ) (q : Planner),
        overspendMoveAmountStep p mes anio o d sobregiro (some monto) = .aceptado q →
        q.sobregiros_mes_actual =
          if 1 / 100 < sobregiro - monto then p.sobregiros_mes_actual.set d (sobregiro - monto)
          else p.sobregiros_mes_actual.erase d) ∧
    (∀ (p : PlannerFP) (mes anio : Nat) (catEx origen : CatFP) (sobregiro monto : ℚ),
        opcionesReajusteFP p mes anio catEx ≠ [] →
        monto ≤ disponibleFP p mes anio origen →
        (handleOverspendingWizardFP p mes anio catEx sobregiro
            (.mover origen monto)).sobregiros_mes_actual =
          if 0 < sobregiro - monto then p.sobregiros_mes_actual.set catEx (sobregiro - monto)
          else p.sobregiros_mes_actual.erase catEx) := by
  constructor
  · intro p mes anio o d sobregiro monto q hq
    by_cases hguard : monto ≤ 0 ∨ disponible p mes anio o < monto
    · rw [overspendMoveAmountStep_eq_rechazado _ _ _ _ _ _ _ hguard] at hq
      exact absurd hq (by simp)
    · push_neg at hguard
      rw [overspendMoveAmountStep_eq_aceptado _ _ _ _ _ _ _ hguard.1 hguard.2] at hq
      have hq' := MoveStepResult.aceptado.inj hq
      subst hq'
      rfl
  · intro p mes anio catEx origen sobregiro monto hne hd
    have hsob := reajustarPresupuestoFP_sobregiros p origen catEx monto
    by_cases hres : 0 < sobregiro - monto
    · simp [handleOverspendingWizardFP, hne, not_lt.mpr hd, hres, hsob]
    · by_cases hsome : (p.sobregiros_mes_actual.get catEx).isSome
      · simp [handleOverspendingWizardFP, hne, not_lt.mpr hd, hres, hsob, hsome]
      · have hnone : p.sobregiros_mes_actual.get catEx = none := by
          simpa using hsome
        simp [handleOverspendingWizardFP, hne, not_lt.mpr hd, hres, hsob, hsome,
          SobregirosFP.erase_de_get_none _ _ hnone]

/-- Witness for the amended C4: the accepted move of 500 against the
500 overage of `plannerMovimiento` deletes the pending entry (residual 0),
and the console move of 1/2 against the 101/200 overage records the
residual 1/200. -/
theorem C4_residuo_pendiente_witness :
    plannerMovimientoAceptado.sobregiros_mes_actual = ⟨none, none, none⟩ ∧
      (handleOverspendingWizardFP plannerConsola 9 2025 .deseos (101 / 200)
          (.mover .necesidades (1 / 2))).sobregiros_mes_actual = ⟨none, some (1 / 200), none⟩ := by
  constructor
  · have h :=
      C4_residuo_pendiente.1 plannerMovimiento 9 2025 .necesidades .deseos
        500 500 plannerMovimientoAceptado
        (by
          simp [overspendMoveAmountStep, disponible, presupuestoCalculado, ingresoMensualTotal,
            calcularGastosRealesPorTipo, gastosAcumulados, Transaccion.enMes,
            SpendType.toCatBot, BudgetPct.get, BudgetPct.set, Sobregiros.erase,
            plannerMovimiento, plannerMovimientoAceptado] <;> norm_num)
    rw [h]
    norm_num [Sobregiros.erase, plannerMovimiento]
  · have h :=
      C4_residuo_pendiente.2 plannerConsola 9 2025 .deseos .necesidades
        (101 / 200) (1 / 2)
        (by
          simp [opcionesReajusteFP, catListFP, disponibleFP, calcularGastosRealesPorTipoFP,
            gastosAcumuladosFP, MontosFP.get, plannerConsola, List.filter,
            List.filterMap] <;> norm_num)
        (by
          simp [disponibleFP, calcularGastosRealesPorTipoFP, gastosAcumuladosFP, MontosFP.get,
            plannerConsola] <;> norm_num)
    rw [h]
    norm_num [SobregirosFP.set, plannerConsola]

/-! Claim C5: the reject-and-re-prompt contract holds in the chat variant
but not in the console variant. -/

/-- Counterexample for C5: in the console variant, a move amount larger
than the source's availability is not re-prompted; the full overage is
recorded as pending, so the pending-overspend map does change. -/
theorem C5_contraejemplo :
    disponibleFP plannerConsola 9 2025 .necesidades < 1000 ∧
      (handleOverspendingWizardFP plannerConsola 9 2025 .deseos 5
            (.mover .necesidades 1000)).sobregiros_mes_actual ≠
        plannerConsola.sobregiros_mes_actual := by
  constructor
  · simp [disponibleFP, calcularGastosRealesPorTipoFP, gastosAcumuladosFP, MontosFP.get,
      plannerConsola] <;> norm_num
  · have h :
        (handleOverspendingWizardFP plannerConsola 9 2025 .deseos 5
            (.mover .necesidades 1000)).sobregiros_mes_actual = ⟨none, some 5, none⟩ := by
      simp [handleOverspendingWizardFP, opcionesReajusteFP, catListFP, disponibleFP,
        calcularGastosRealesPorTipoFP, gastosAcumuladosFP, MontosFP.get, SobregirosFP.set,
        plannerConsola, List.filter, List.filterMap] <;> norm_num
    rw [h]
    simp [plannerConsola]

/-- C5 as amended: in the chat variant the `ENTERING_AMOUNT` step rejects
an unparseable, non-positive or over-available amount and re-prompts in
the same state with the planner unchanged (bot.py lines 934-936); in the
console variant an over-available amount is not re-prompted — the full
overage is recorded as pending and the episode ends (financial_planner.py
lines 585-587), and a non-positive amount is not rejected at all. -/
theorem C5_rechazo_montos :
    (∀ (p : Planner) (mes anio : Nat) (o d : Cat) (sobregiro : ℚ),
        overspendMoveAmountStep p mes anio o d sobregiro none = .rechazado p) ∧
    (∀ (p : Planner) (mes anio : Nat) (o d : Cat) (sobregiro monto : ℚ),
        monto ≤ 0 ∨ disponible p mes anio o < monto →
        overspendMoveAmountStep p mes anio o d sobregiro (some monto) = .rechazado p) ∧
    (∀ (p : PlannerFP) (mes anio : Nat) (catEx origen : CatFP) (sobregiro monto : ℚ),
        opcionesReajusteFP p mes anio catEx ≠ [] →
        disponibleFP p mes anio origen < monto →
        handleOverspendingWizardFP p mes anio catEx sobregiro (.mover origen monto) =
          { p with
            sobregiros_mes_actual := p.sobregiros_mes_actual.set catEx sobregiro }) := by
  refine ⟨?_, ?_, ?_⟩
  · intro p mes anio o d sobregiro
    rfl
  · intro p mes anio o d sobregiro monto h
    exact overspendMoveAmountStep_eq_rechazado p mes anio o d sobregiro monto h
  · intro p mes anio catEx origen sobregiro monto hne hlt
    simp [handleOverspendingWizardFP, hne, hlt]

/-- Witness for the amended C5: a negative amount is rejected by the chat
variant with the state unchanged, and an over-available console move
records the full overage. -/
theorem C5_rechazo_montos_witness :
    overspendMoveAmountStep plannerMovimiento 9 2025 .necesidades .deseos 500 (some (-1)) =
        .rechazado plannerMovimiento ∧
      (handleOverspendingWizardFP plannerConsola 9 2025 .deseos 5
            (.mover .necesidades 1000)).sobregiros_mes_actual = ⟨none, some 5, none⟩ := by
  constructor
  · exact
      C5_rechazo_montos.2.1 plannerMovimiento 9 2025 .necesidades .deseos 500 (-1)
        (Or.inl (by norm_num))
  · have h :=
      C5_rechazo_montos.2.2 plannerConsola 9 2025 .deseos .necesidades 5 1000
        (by
          simp [opcionesReajusteFP, catListFP, disponibleFP, calcularGastosRealesPorTipoFP,
            gastosAcumuladosFP, MontosFP.get, plannerConsola, List.filter,
            List.filterMap] <;> norm_num)
        (by
          simp [disponibleFP, calcularGastosRealesPorTipoFP, gastosAcumuladosFP, MontosFP.get,
            plannerConsola] <;> norm_num)
    rw [h]
    norm_num [SobregirosFP.set, plannerConsola]

/-! Claim C6: the skip-to-pending behaviour on exhausted availability is
the console variant's; the chat variant instead stays in the choice state
with nothing recorded until the user confirms. -/

/-- A chat-variant planner whose three buckets are exactly exhausted
except Deseos, which the next expense pushes over budget. -/
def plannerSinFondos : Planner :=
  { ingresos := [100],
    transacciones := [⟨50, .necesidades, 9, 2025⟩, ⟨20, .inversion, 9, 2025⟩,
      ⟨30, .deseos, 9, 2025⟩],
    budget_percentages := ⟨1 / 2, 3 / 10, 1 / 5⟩,
    sobregiros_mes_actual := ⟨none, none, none⟩ }

/-- Counterexample for C6: in the chat variant, a 10 overspend of Deseos
with no availability anywhere yields an over-budget outcome with an empty
option list, the episode does not terminate, and the pending-overspend
map still has no entry — the overage is not recorded. -/
theorem C6_contraejemplo :
    (saveTransactionAndCheckOverspending plannerSinFondos 10 .deseos 9 2025).1 =
        .overBudget 10 [] ∧
      ConvOutcome.terminado
          (saveTransactionAndCheckOverspending plannerSinFondos 10 .deseos 9 2025).1 = false ∧
      (saveTransactionAndCheckOverspending plannerSinFondos 10 .deseos
            9 2025).2.sobregiros_mes_actual.get .deseos = none := by
  have hdisp :
      disponible (plannerTrasRegistro plannerSinFondos 10 .deseos 9 2025) 9 2025 .deseos =
        -10 := by
    simp [disponible, plannerTrasRegistro, presupuestoCalculado, ingresoMensualTotal,
      calcularGastosRealesPorTipo, gastosAcumulados, Transaccion.enMes, SpendType.toCatBot,
      Cat.toSpendType, BudgetPct.get, plannerSinFondos] <;> norm_num
  have hnec :
      disponible (plannerTrasRegistro plannerSinFondos 10 .deseos 9 2025) 9 2025
          .necesidades = 0 := by
    simp [disponible, plannerTrasRegistro, presupuestoCalculado, ingresoMensualTotal,
      calcularGastosRealesPorTipo, gastosAcumulados, Transaccion.enMes, SpendType.toCatBot,
      Cat.toSpendType, BudgetPct.get, plannerSinFondos] <;> norm_num
  have hinv :
      disponible (plannerTrasRegistro plannerSinFondos 10 .deseos 9 2025) 9 2025 .inversion =
        0 := by
    simp [disponible, plannerTrasRegistro, presupuestoCalculado, ingresoMensualTotal,
      calcularGastosRealesPorTipo, gastosAcumulados, Transaccion.enMes, SpendType.toCatBot,
      Cat.toSpendType, BudgetPct.get, plannerSinFondos] <;> norm_num
  have hops :
      opcionesDisponibles (plannerTrasRegistro plannerSinFondos 10 .deseos 9 2025) 9 2025
          .deseos = [] := by
    simp [opcionesDisponibles, catList, List.filter, List.filterMap, hnec, hinv]
  have hstep :
      saveTransactionAndCheckOverspending plannerSinFondos 10 .deseos 9 2025 =
        (.overBudget 10 [], plannerTrasRegistro plannerSinFondos 10 .deseos 9 2025) := by
    simp only [saveTransactionAndCheckOverspending, hdisp, hops]
    norm_num
  rw [hstep]
  exact ⟨rfl, rfl, rfl⟩

/-- C6 as amended: when no other category has positive availability, the
console variant records the full overage as pending immediately and
returns without consulting the user's decision (financial_planner.py
lines 570-573); the chat variant offers no move option — only "leave it"
— and stays in the choice state with the pending map unchanged (bot.py
lines 787-801), recording the full overage only when the user picks the
"leave it" branch (bot.py lines 897-904). -/
theorem C6_sin_disponibilidad :
    (∀ (p : PlannerFP) (mes anio : Nat) (catEx : CatFP) (sobregiro : ℚ)
        (decision : DecisionFP),
        opcionesReajusteFP p mes anio catEx = [] →
        handleOverspendingWizardFP p mes anio catEx sobregiro decision =
          { p with
            sobregiros_mes_actual := p.sobregiros_mes_actual.set catEx sobregiro }) ∧
    (∀ (p : Planner) (monto : ℚ) (tipo : Cat) (mes anio : Nat),
        disponible (plannerTrasRegistro p monto tipo mes anio) mes anio tipo < 0 →
        opcionesDisponibles (plannerTrasRegistro p monto tipo mes anio) mes anio tipo = [] →
        (saveTransactionAndCheckOverspending p monto tipo mes anio).1 =
            .overBudget
              |disponible (plannerTrasRegistro p monto tipo mes anio) mes anio tipo| [] ∧
          ConvOutcome.terminado
              (saveTransactionAndCheckOverspending p monto tipo mes anio).1 = false ∧
          (saveTransactionAndCheckOverspending p monto tipo
                mes anio).2.sobregiros_mes_actual = p.sobregiros_mes_actual) ∧
    (∀ (p : Planner) (catEx : Cat) (sobregiro : ℚ),
        overspendLeaveStep p catEx sobregiro =
          { p with
            sobregiros_mes_actual := p.sobregiros_mes_actual.set catEx sobregiro }) := by
  refine ⟨?_, ?_, ?_⟩
  · intro p mes anio catEx sobregiro decision hvacio
    simp [handleOverspendingWizardFP, hvacio]
  · intro p monto tipo mes anio hneg hvacio
    have hstep :
        saveTransactionAndCheckOverspending p monto tipo mes anio =
          (.overBudget
              |disponible (plannerTrasRegistro p monto tipo mes anio) mes anio tipo| [],
            plannerTrasRegistro p monto tipo mes anio) := by
      simp only [saveTransactionAndCheckOverspending, hvacio]
      rw [if_pos hneg]
    rw [hstep]
    exact ⟨rfl, rfl, rfl⟩
  · intro p catEx sobregiro
    rfl

/-- A console planner in which only Deseos has any budget, so no other
bucket has positive availability. -/
def plannerConsolaSinFondos : PlannerFP :=
  { ingresos := [100],
    presupuestos := ⟨0, 30, 0⟩,
    budget_percentages := ⟨0, 3 / 10, 0⟩,
    transacciones := [],
    sobregiros_mes_actual := ⟨none, none, none⟩ }

/-- Witness for the amended C6: the console wizard with no availability
records the full overage regardless of the supplied decision, and the
chat variant's step with no availability stays unterminated with the
pending map unchanged. -/
theorem C6_sin_disponibilidad_witness :
    handleOverspendingWizardFP plannerConsolaSinFondos 9 2025 .deseos 4
          (.mover .necesidades 1000) =
        { plannerConsolaSinFondos with
          sobregiros_mes_actual := ⟨none, some 4, none⟩ } ∧
      ConvOutcome.terminado
          (saveTransactionAndCheckOverspending plannerSinFondos 10 .deseos 9 2025).1 =
        false := by
  constructor
  · have h :=
      C6_sin_disponibilidad.1 plannerConsolaSinFondos 9 2025 .deseos 4
        (.mover .necesidades 1000)
        (by
          simp [opcionesReajusteFP, catListFP, disponibleFP, calcularGastosRealesPorTipoFP,
            gastosAcumuladosFP, MontosFP.get, plannerConsolaSinFondos, List.filter,
            List.filterMap] <;> norm_num)
    rw [h]
    norm_num [SobregirosFP.set, plannerConsolaSinFondos]
  · have h :=
      (C6_sin_disponibilidad.2.1 plannerSinFondos 10 .deseos 9 2025
        (by
          simp [disponible, plannerTrasRegistro, presupuestoCalculado, ingresoMensualTotal,
            calcularGastosRealesPorTipo, gastosAcumulados, Transaccion.enMes,
            SpendType.toCatBot, Cat.toSpendType, BudgetPct.get, plannerSinFondos] <;>
            norm_num)
        (by
          have hnec :
              disponible (plannerTrasRegistro plannerSinFondos 10 .deseos 9 2025) 9 2025
                  .necesidades = 0 := by
            simp [disponible, plannerTrasRegistro, presupuestoCalculado, ingresoMensualTotal,
              calcularGastosRealesPorTipo, gastosAcumulados, Transaccion.enMes,
              SpendType.toCatBot, Cat.toSpendType, BudgetPct.get, plannerSinFondos] <;>
              norm_num
          have hinv :
              disponible (plannerTrasRegistro plannerSinFondos 10 .deseos 9 2025) 9 2025
                  .inversion = 0 := by
            simp [disponible, plannerTrasRegistro, presupuestoCalculado, ingresoMensualTotal,
              calcularGastosRealesPorTipo, gastosAcumulados, Transaccion.enMes,
              SpendType.toCatBot, Cat.toSpendType, BudgetPct.get, plannerSinFondos] <;>
              norm_num
          simp [opcionesDisponibles, catList, List.filter, List.filterMap, hnec, hinv]))
    exact h.2.1

/-! Claim C7: the alias remap exists only in the chat variant; the console
variant keeps "Ahorro/Deudas" as its own bucket. -/

/-- A console planner holding one legacy-tagged transaction of 100 in the
current month. -/
def plannerConsolaLegado : PlannerFP :=
  { ingresos := [100],
    presupuestos := ⟨50, 30, 20⟩,
    budget_percentages := ⟨1 / 2, 3 / 10, 1 / 5⟩,
    transacciones := [⟨100, .ahorroDeudas, 9, 2025⟩],
    sobregiros_mes_actual := ⟨none, none, none⟩ }

/-- Counterexample for C7: in the console aggregator a transaction tagged
"Ahorro/Deudas" is counted under the bucket "Ahorro/Deudas" itself — the
legacy tag does appear as its own non-zero bucket, and the console bucket
map has no "Inversión" key for the amount to land in. -/
theorem C7_contraejemplo :
    calcularGastosRealesPorTipoFP plannerConsolaLegado 9 2025 .ahorroDeudas = 100 ∧
      (100 : ℚ) ≠ 0 ∧
      SpendType.toCatFP .inversion = none := by
  refine ⟨?_, by norm_num, rfl⟩
  simp [calcularGastosRealesPorTipoFP, gastosAcumuladosFP, Transaccion.enMes,
    SpendType.toCatFP, plannerConsolaLegado] <;> norm_num

/-- C7 as amended: in the chat variant a transaction tagged with the
legacy spend-type "Ahorro/Deudas" aggregates into the "Inversión" total
and changes no other bucket (bot.py lines 250-258); in the console
variant the same transaction aggregates into the "Ahorro/Deudas" bucket
itself, which is that variant's own third bucket — no remap occurs
(financial_planner.py lines 176-186). -/
theorem C7_alias_legado :
    (∀ (p : Planner) (monto : ℚ) (mes anio : Nat) (q : Planner),
        q = { p with
          transacciones := p.transacciones ++ [⟨monto, .ahorroDeudas, mes, anio⟩] } →
        calcularGastosRealesPorTipo q mes anio .inversion =
            calcularGastosRealesPorTipo p mes anio .inversion + monto ∧
          ∀ c : Cat, c ≠ .inversion →
            calcularGastosRealesPorTipo q mes anio c =
              calcularGastosRealesPorTipo p mes anio c) ∧
    (∀ (p : PlannerFP) (monto : ℚ) (mes anio : Nat) (q : PlannerFP),
        q = { p with
          transacciones := p.transacciones ++ [⟨monto, .ahorroDeudas, mes, anio⟩] } →
        calcularGastosRealesPorTipoFP q mes anio .ahorroDeudas =
          calcularGastosRealesPorTipoFP p mes anio .ahorroDeudas + monto) := by
  constructor
  · intro p monto mes anio q hq
    subst hq
    constructor
    · simp [calcularGastosRealesPorTipo, gastosAcumulados_append, gastosAcumulados,
        Transaccion.enMes, SpendType.toCatBot]
    · intro c hc
      simp [calcularGastosRealesPorTipo, gastosAcumulados_append, gastosAcumulados,
        Transaccion.enMes, SpendType.toCatBot, Ne.symm hc]
  · intro p monto mes anio q hq
    subst hq
    simp [calcularGastosRealesPorTipoFP, gastosAcumuladosFP_append, gastosAcumuladosFP,
      Transaccion.enMes, SpendType.toCatFP]

/-- Witness for the amended C7: a legacy-tagged 100 lands in Inversión in
the chat variant, leaves Deseos untouched there, and lands in the
Ahorro/Deudas bucket of the console variant. -/
theorem C7_alias_legado_witness :
    calcularGastosRealesPorTipo
          { plannerEscenario with
            transacciones :=
              plannerEscenario.transacciones ++ [⟨100, .ahorroDeudas, 9, 2025⟩] } 9 2025
          .inversion =
        calcularGastosRealesPorTipo plannerEscenario 9 2025 .inversion + 100 ∧
      calcularGastosRealesPorTipo
          { plannerEscenario with
            transacciones :=
              plannerEscenario.transacciones ++ [⟨100, .ahorroDeudas, 9, 2025⟩] } 9 2025
          .deseos =
        calcularGastosRealesPorTipo plannerEscenario 9 2025 .deseos ∧
      calcularGastosRealesPorTipoFP
          { plannerConsolaLegado with
            transacciones :=
              plannerConsolaLegado.transacciones ++ [⟨7, .ahorroDeudas, 9, 2025⟩] } 9 2025
          .ahorroDeudas =
        calcularGastosRealesPorTipoFP plannerConsolaLegado 9 2025 .ahorroDeudas + 7 :=
  ⟨(C7_alias_legado.1 plannerEscenario 100 9 2025 _ rfl).1,
    (C7_alias_legado.1 plannerEscenario 100 9 2025 _ rfl).2 .deseos (by decide),
    C7_alias_legado.2 plannerConsolaLegado 7 9 2025 _ rfl⟩

/-! Claim C8. -/

/-- C8: the avalanche plan orders debts descending by annual interest rate
and the snowball plan ascending by current balance, both as stable sorts:
each ordering is a permutation of the input, is sorted by its key, and
keeps any source-ordered pair of debts with equal keys in source order
(bot.py lines 277-283, financial_planner.py lines 188-194). -/
theorem C8_ordenes_planes_deuda (deudas : List Deuda) :
    List.Pairwise (fun a b : Deuda => b.tasa_interes_anual ≤ a.tasa_interes_anual)
        (generarPlanAvalanchaOrden deudas) ∧
      (generarPlanAvalanchaOrden deudas).Perm deudas ∧
      (∀ a b : Deuda, a.tasa_interes_anual = b.tasa_interes_anual →
          List.Sublist [a, b] deudas →
          List.Sublist [a, b] (generarPlanAvalanchaOrden deudas)) ∧
      List.Pairwise (fun a b : Deuda => a.saldo_actual ≤ b.saldo_actual)
        (generarPlanBolaDeNieveOrden deudas) ∧
      (generarPlanBolaDeNieveOrden deudas).Perm deudas ∧
      (∀ a b : Deuda, a.saldo_actual = b.saldo_actual →
          List.Sublist [a, b] deudas →
          List.Sublist [a, b] (generarPlanBolaDeNieveOrden deudas)) := by
  have transA : ∀ a b c : Deuda,
      decide (b.tasa_interes_anual ≤ a.tasa_interes_anual) = true →
      decide (c.tasa_interes_anual ≤ b.tasa_interes_anual) = true →
      decide (c.tasa_interes_anual ≤ a.tasa_interes_anual) = true := by
    intro a b c hab hbc
    simp only [decide_eq_true_eq] at *
    exact le_trans hbc hab
  have totalA : ∀ a b : Deuda,
      (decide (b.tasa_interes_anual ≤ a.tasa_interes_anual) ||
          decide (a.tasa_interes_anual ≤ b.tasa_interes_anual)) = true := by
    intro a b
    simp only [Bool.or_eq_true, decide_eq_true_eq]
    exact le_total _ _
  have transS : ∀ a b c : Deuda,
      decide (a.saldo_actual ≤ b.saldo_actual) = true →
      decide (b.saldo_actual ≤ c.saldo_actual) = true →
      decide (a.saldo_actual ≤ c.saldo_actual) = true := by
    intro a b c hab hbc
    simp only [decide_eq_true_eq] at *
    exact le_trans hab hbc
  have totalS : ∀ a b : Deuda,
      (decide (a.saldo_actual ≤ b.saldo_actual) ||
          decide (b.saldo_actual ≤ a.saldo_actual)) = true := by
    intro a b
    simp only [Bool.or_eq_true, decide_eq_true_eq]
    exact le_total _ _
  refine ⟨?_, ?_, ?_, ?_, ?_, ?_⟩
  · exact
      (List.sorted_mergeSort transA totalA deudas).imp fun h => by
        simpa using h
  · exact List.mergeSort_perm deudas _
  · intro a b htasa hsub
    exact
      List.pair_sublist_mergeSort transA totalA (decide_eq_true htasa.ge) hsub
  · exact
      (List.sorted_mergeSort transS totalS deudas).imp fun h => by
        simpa using h
  · exact List.mergeSort_perm deudas _
  · intro a b hsaldo hsub
    exact
      List.pair_sublist_mergeSort transS totalS (decide_eq_true hsaldo.le) hsub

/-- The debts of spec section 8.7: A(rate 10, balance 500),
B(rate 25, balance 2000), C(rate 25, balance 100). -/
def deudaA : Deuda := ⟨"A", 500, 10, 0⟩

def deudaB : Deuda := ⟨"B", 2000, 25, 0⟩

def deudaC : Deuda := ⟨"C", 100, 25, 0⟩

/-- Witness for C8: in the avalanche ordering of [A, B, C] the equal-rate
pair B, C keeps its source order, and the snowball ordering is a
permutation of the input. -/
theorem C8_ordenes_planes_deuda_witness :
    List.Sublist [deudaB, deudaC] (generarPlanAvalanchaOrden [deudaA, deudaB, deudaC]) ∧
      (generarPlanBolaDeNieveOrden [deudaA, deudaB, deudaC]).Perm
        [deudaA, deudaB, deudaC] :=
  ⟨(C8_ordenes_planes_deuda [deudaA, deudaB, deudaC]).2.2.1 deudaB deudaC rfl
      (List.Sublist.cons deudaA (List.Sublist.refl [deudaB, deudaC])),
    (C8_ordenes_planes_deuda [deudaA, deudaB, deudaC]).2.2.2.2.1⟩

/-! Claim C9. -/

theorem elegirUno_sin_exclusiones_ne_none (tips : List Tip) (nivel : Nivel)
    (condicion : Condicion) (k : Nat)
    (h : ∃ t ∈ tips, t.elegible nivel condicion = true) :
    elegirUno tips nivel condicion [] k ≠ none := by
  obtain ⟨t, ht, he⟩ := h
  have hmem : t ∈ filtrarTips tips nivel condicion [] := by
    simp [filtrarTips, List.mem_filter, ht, he]
  have hlen : 0 < (filtrarTips tips nivel condicion []).length :=
    List.length_pos.mpr (List.ne_nil_of_mem hmem)
  simp only [elegirUno]
  rw [List.getElem?_eq_getElem (Nat.mod_lt _ hlen)]
  simp

/-- C9: in both variants of `siguiente_tip`, when the first draw finds no
candidate and the shown-ids list is non-empty, the selector retries
exactly once with an empty exclusion set, returning whatever that retry
returns; consequently, whenever at least one tip is eligible for the
(level, condition) pair the selector never returns `none`, for every
possible random draw (bot.py lines 230-248, financial_planner.py lines
147-159; the console variant also retries when the shown list is empty,
which changes nothing since the exclusion set is then already empty). -/
theorem C9_reintento_tips :
    (∀ (tips : List Tip) (nivel : Nivel) (condicion : Condicion) (mostrados : List Nat)
        (k₁ k₂ : Nat),
        elegirUno tips nivel condicion mostrados k₁ = none → mostrados ≠ [] →
        (siguienteTip tips nivel condicion mostrados k₁ k₂).1 =
          elegirUno tips nivel condicion [] k₂) ∧
    (∀ (tips : List Tip) (nivel : Nivel) (condicion : Condicion) (mostrados : List Nat)
        (k₁ k₂ : Nat),
        (∃ t ∈ tips, t.elegible nivel condicion = true) →
        (siguienteTip tips nivel condicion mostrados k₁ k₂).1 ≠ none) ∧
    (∀ (tips : List Tip) (nivel : Nivel) (condicion : Condicion) (mostrados : List Nat)
        (k₁ k₂ : Nat),
        elegirUno tips nivel condicion mostrados k₁ = none →
        (siguienteTipFP tips nivel condicion mostrados k₁ k₂).1 =
          elegirUno tips nivel condicion [] k₂) ∧
    (∀ (tips : List Tip) (nivel : Nivel) (condicion : Condicion) (mostrados : List Nat)
        (k₁ k₂ : Nat),
        (∃ t ∈ tips, t.elegible nivel condicion = true) →
        (siguienteTipFP tips nivel condicion mostrados k₁ k₂).1 ≠ none) := by
  refine ⟨?_, ?_, ?_, ?_⟩
  · intro tips nivel condicion mostrados k₁ k₂ h1 h2
    cases helegir : elegirUno tips nivel condicion [] k₂ with
    | none => simp [siguienteTip, h1, h2, helegir]
    | some t => simp [siguienteTip, h1, h2, helegir]
  · intro tips nivel condicion mostrados k₁ k₂ hex
    cases h1 : elegirUno tips nivel condicion mostrados k₁ with
    | some t => simp [siguienteTip, h1]
    | none =>
      by_cases h2 : mostrados = []
      · subst h2
        exact absurd h1 (elegirUno_sin_exclusiones_ne_none tips nivel condicion k₁ hex)
      · cases h3 : elegirUno tips nivel condicion [] k₂ with
        | none =>
          exact absurd h3 (elegirUno_sin_exclusiones_ne_none tips nivel condicion k₂ hex)
        | some t => simp [siguienteTip, h1, h2, h3]
  · intro tips nivel condicion mostrados k₁ k₂ h1
    cases helegir : elegirUno tips nivel condicion [] k₂ with
    | none => simp [siguienteTipFP, h1, helegir]
    | some t => simp [siguienteTipFP, h1, helegir]
  · intro tips nivel condicion mostrados k₁ k₂ hex
    cases h1 : elegirUno tips nivel condicion mostrados k₁ with
    | some t => simp [siguienteTipFP, h1]
    | none =>
      cases h3 : elegirUno tips nivel condicion [] k₂ with
      | none =>
        exact absurd h3 (elegirUno_sin_exclusiones_ne_none tips nivel condicion k₂ hex)
      | some t => simp [siguienteTipFP, h1, h3]

/-- A tip eligible for every income level and the no-debt condition. -/
def tipEjemplo : Tip := ⟨1, [.todos], [.sinDeudas]⟩

/-- Witness for C9: with a single eligible tip whose id is already in the
shown list, both selectors still return a tip (via the reset retry),
never `none`. -/
theorem C9_reintento_tips_witness :
    (siguienteTip [tipEjemplo] .n1 .sinDeudas [1] 0 0).1 ≠ none ∧
      (siguienteTipFP [tipEjemplo] .n1 .sinDeudas [1] 0 0).1 ≠ none :=
  ⟨C9_reintento_tips.2.1 [tipEjemplo] .n1 .sinDeudas [1] 0 0
      ⟨tipEjemplo, by decide, by decide⟩,
    C9_reintento_tips.2.2.2 [tipEjemplo] .n1 .sinDeudas [1] 0 0
      ⟨tipEjemplo, by decide, by decide⟩⟩

end ChatbotPM
